import Mathlib

/-!
Shallow embedding of `argo_tunnel.go` from favonia/cloudflare-go: the Argo
Tunnel resource client (list, get, create, delete, connection cleanup).

The file models:
* the JSON values exchanged with the server (`Json`);
* the Go data types `ArgoTunnel`, `ArgoTunnelConnection`,
  `ArgoTunnelsDetailResponse`, `ArgoTunnelDetailResponse`;
* the behaviour of Go `encoding/json` unmarshalling for exactly these types
  (missing object members leave the zero value, `null` leaves the target
  unchanged, type mismatches fail, unknown members are ignored, a JSON
  `null`/missing slice is a nil slice while `[]` is an empty non-nil slice);
* the marshalling of these types implied by their struct tags (`omitempty`
  drops empty strings, nil pointers and length-zero slices);
* the five API methods, parameterised by the external transport collaborator
  `makeRequestContext`.

Go nil-able slices are modelled as `Option (List _)` (`none` = nil slice,
`some []` = empty non-nil slice) and `*time.Time` as `Option GoTime`.
-/

/-- A JSON value. Numbers are modelled as integers: no fractional number
occurs in any payload of this client. -/
inductive Json where
  | null : Json
  | bool : Bool → Json
  | num : Int → Json
  | str : String → Json
  | arr : List Json → Json
  | obj : List (String × Json) → Json

/-- A `time.Time` value as carried in JSON. The RFC 3339 text is kept
verbatim; the parsing done by the external `time` package is not modelled
(every string is accepted), since no behaviour of this client depends on it. -/
structure GoTime where
  rfc3339 : String

/-- `ArgoTunnelConnection` (argo_tunnel.go lines 23-27): the connections
associated with a tunnel.  JSON tags: `colo_name`, `uuid`,
`is_pending_reconnect`, none with `omitempty`. -/
structure ArgoTunnelConnection where
  coloName : String
  uuid : String
  isPendingReconnect : Bool

/-- `ArgoTunnel` (argo_tunnel.go lines 13-20).  JSON tags: `id`, `name`,
`tunnel_secret`, `created_at`, `deleted_at`, `connections`, all with
`omitempty`. -/
structure ArgoTunnel where
  id : String
  name : String
  secret : String
  createdAt : Option GoTime
  deletedAt : Option GoTime
  connections : Option (List ArgoTunnelConnection)

/-- The zero value `ArgoTunnel{}`. -/
def zeroArgoTunnel : ArgoTunnel :=
  ⟨"", "", "", none, none, none⟩

/-- Modelled from the spec: one entry of the `errors`/`messages` lists of the
shared envelope status object ("success flag, errors, messages"); its Go
definition lives in the shared client library, outside this source file. -/
structure ResponseInfo where
  code : Int
  message : String

/-- Modelled from the spec: the generic top-level status object `Response`
shared across the API client library ("success flag, errors, messages — not
redefined here"); its Go definition is outside this source file. -/
structure Response where
  success : Bool
  errors : Option (List ResponseInfo)
  messages : Option (List ResponseInfo)

/-- The zero value `Response{}`. -/
def zeroResponse : Response :=
  ⟨false, none, none⟩

/-- `ArgoTunnelsDetailResponse` (argo_tunnel.go lines 31-34): envelope for
multiple tunnels; `Result []ArgoTunnel` tagged `result`, embedded `Response`. -/
structure ArgoTunnelsDetailResponse where
  result : Option (List ArgoTunnel)
  response : Response

/-- `ArgoTunnelDetailResponse` (argo_tunnel.go lines 38-41): envelope for a
single tunnel; `Result ArgoTunnel` tagged `result`, embedded `Response`. -/
structure ArgoTunnelDetailResponse where
  result : ArgoTunnel
  response : Response

/-- An error produced by `encoding/json`: a syntax error in the raw bytes, or
a type mismatch against the target Go type. -/
inductive JsonErr where
  | parseError : JsonErr
  | typeMismatch : JsonErr

/-- An error reported by the transport collaborator `makeRequestContext`
(network failure, non-2xx status, ...); abstract to this client. -/
inductive TransportErr where
  | mk : String → TransportErr

/-- A Go `error` value as this client produces and propagates it:
an underlying transport or JSON cause, possibly wrapped. -/
inductive GoError where
  | transport : TransportErr → GoError
  | jsonErr : JsonErr → GoError
  | wrapped : String → GoError → GoError

/-- Modelled from the spec: `errors.Wrap` of the external pkg/errors
collaborator — "wrapped with a static contextual message identifying which
failure stage occurred, preserving the underlying cause". -/
def errorsWrap (cause : GoError) (msg : String) : GoError :=
  GoError.wrapped msg cause

/-- Modelled from the spec: the static message identifying the
request-failure stage (`errMakeRequestError`, defined in the shared client
library outside this source file). -/
def errMakeRequestError : String := "error from makeRequest"

/-- Modelled from the spec: the static message identifying the
decode-failure stage (`errUnmarshalError`, defined in the shared client
library outside this source file). -/
def errUnmarshalError : String := "error unmarshalling the JSON response"

/-- Member lookup in a JSON object, first match wins.  The payloads of this
client never carry duplicate member names; Go behaviour on duplicates is not
modelled. -/
def lookupField : List (String × Json) → String → Option Json
  | [], _ => none
  | (k', v) :: fs, k => if k' = k then some v else lookupField fs k

/-- Unmarshal a `string` struct field: a missing member or `null` leaves the
zero value `""`, a JSON string is taken verbatim, anything else is a type
mismatch. -/
def decodeStringField (fs : List (String × Json)) (k : String) :
    Except JsonErr String :=
  match lookupField fs k with
  | none => .ok ""
  | some Json.null => .ok ""
  | some (Json.str s) => .ok s
  | some _ => .error .typeMismatch

/-- Unmarshal a `bool` struct field: missing or `null` leaves `false`. -/
def decodeBoolField (fs : List (String × Json)) (k : String) :
    Except JsonErr Bool :=
  match lookupField fs k with
  | none => .ok false
  | some Json.null => .ok false
  | some (Json.bool b) => .ok b
  | some _ => .error .typeMismatch

/-- Unmarshal an `int` struct field: missing or `null` leaves `0`. -/
def decodeIntField (fs : List (String × Json)) (k : String) :
    Except JsonErr Int :=
  match lookupField fs k with
  | none => .ok 0
  | some Json.null => .ok 0
  | some (Json.num n) => .ok n
  | some _ => .error .typeMismatch

/-- Unmarshal a `*time.Time` struct field: missing or `null` is a nil
pointer, a JSON string is the carried time text. -/
def decodeTimeField (fs : List (String × Json)) (k : String) :
    Except JsonErr (Option GoTime) :=
  match lookupField fs k with
  | none => .ok none
  | some Json.null => .ok none
  | some (Json.str s) => .ok (some ⟨s⟩)
  | some _ => .error .typeMismatch

/-- Unmarshal a JSON array element-wise, left to right, stopping at the
first failure — Go's slice unmarshalling order. -/
def decodeList (dec : Json → Except JsonErr α) : List Json → Except JsonErr (List α)
  | [] => .ok []
  | j :: js => do
    let x ← dec j
    let xs ← decodeList dec js
    .ok (x :: xs)

/-- Unmarshal a JSON value into `ArgoTunnelConnection`: `null` leaves the
zero value; an object fills the three tagged fields, each optional on
decode (Go never requires object members); anything else is a mismatch. -/
def decodeArgoTunnelConnection : Json → Except JsonErr ArgoTunnelConnection
  | Json.null => .ok ⟨"", "", false⟩
  | Json.obj fs => do
    let colo ← decodeStringField fs "colo_name"
    let uuid ← decodeStringField fs "uuid"
    let ipr ← decodeBoolField fs "is_pending_reconnect"
    .ok ⟨colo, uuid, ipr⟩
  | _ => .error .typeMismatch

/-- Unmarshal a `[]ArgoTunnelConnection` struct field: missing or `null`
is a nil slice, `[]` an empty non-nil slice. -/
def decodeConnectionsField (fs : List (String × Json)) (k : String) :
    Except JsonErr (Option (List ArgoTunnelConnection)) :=
  match lookupField fs k with
  | none => .ok none
  | some Json.null => .ok none
  | some (Json.arr js) => do
    let cs ← decodeList decodeArgoTunnelConnection js
    .ok (some cs)
  | some _ => .error .typeMismatch

/-- Unmarshal a JSON value into `ArgoTunnel` following its tags. -/
def decodeArgoTunnel : Json → Except JsonErr ArgoTunnel
  | Json.null => .ok zeroArgoTunnel
  | Json.obj fs => do
    let i ← decodeStringField fs "id"
    let n ← decodeStringField fs "name"
    let s ← decodeStringField fs "tunnel_secret"
    let ca ← decodeTimeField fs "created_at"
    let da ← decodeTimeField fs "deleted_at"
    let cs ← decodeConnectionsField fs "connections"
    .ok ⟨i, n, s, ca, da, cs⟩
  | _ => .error .typeMismatch

/-- Unmarshal a JSON value into `ResponseInfo` (Modelled from the spec:
the shared library's error/message entries, outside this source file). -/
def decodeResponseInfo : Json → Except JsonErr ResponseInfo
  | Json.null => .ok ⟨0, ""⟩
  | Json.obj fs => do
    let c ← decodeIntField fs "code"
    let m ← decodeStringField fs "message"
    .ok ⟨c, m⟩
  | _ => .error .typeMismatch

/-- Unmarshal a `[]ResponseInfo` struct field. -/
def decodeInfoListField (fs : List (String × Json)) (k : String) :
    Except JsonErr (Option (List ResponseInfo)) :=
  match lookupField fs k with
  | none => .ok none
  | some Json.null => .ok none
  | some (Json.arr js) => do
    let xs ← decodeList decodeResponseInfo js
    .ok (some xs)
  | some _ => .error .typeMismatch

/-- Unmarshal the embedded `Response` from the members of the envelope
object (Go promotes an embedded struct's tagged fields to the top level). -/
def decodeResponseFields (fs : List (String × Json)) : Except JsonErr Response := do
  let ok ← decodeBoolField fs "success"
  let es ← decodeInfoListField fs "errors"
  let ms ← decodeInfoListField fs "messages"
  .ok ⟨ok, es, ms⟩

/-- Unmarshal a JSON value into `ArgoTunnelsDetailResponse`. -/
def decodeArgoTunnelsDetailResponse : Json → Except JsonErr ArgoTunnelsDetailResponse
  | Json.null => .ok ⟨none, zeroResponse⟩
  | Json.obj fs => do
    let r ← (match lookupField fs "result" with
      | none => .ok none
      | some Json.null => .ok none
      | some (Json.arr js) => do
        let ts ← decodeList decodeArgoTunnel js
        .ok (some ts)
      | some _ => .error .typeMismatch)
    let resp ← decodeResponseFields fs
    .ok ⟨r, resp⟩
  | _ => .error .typeMismatch

/-- Unmarshal a JSON value into `ArgoTunnelDetailResponse`. -/
def decodeArgoTunnelDetailResponse : Json → Except JsonErr ArgoTunnelDetailResponse
  | Json.null => .ok ⟨zeroArgoTunnel, zeroResponse⟩
  | Json.obj fs => do
    let r ← (match lookupField fs "result" with
      | none => .ok zeroArgoTunnel
      | some j => decodeArgoTunnel j)
    let resp ← decodeResponseFields fs
    .ok ⟨r, resp⟩
  | _ => .error .typeMismatch

/-- Marshal an `ArgoTunnelConnection`: no tag carries `omitempty`, so all
three members are always emitted, in struct-field order. -/
def encodeArgoTunnelConnection (c : ArgoTunnelConnection) : Json :=
  Json.obj [("colo_name", Json.str c.coloName),
            ("uuid", Json.str c.uuid),
            ("is_pending_reconnect", Json.bool c.isPendingReconnect)]

/-- Marshal an `ArgoTunnel`: every tag carries `omitempty`, so empty
strings, nil pointers and length-zero slices are dropped. -/
def encodeArgoTunnel (t : ArgoTunnel) : Json :=
  Json.obj
    ((if t.id = "" then [] else [("id", Json.str t.id)]) ++
     (if t.name = "" then [] else [("name", Json.str t.name)]) ++
     (if t.secret = "" then [] else [("tunnel_secret", Json.str t.secret)]) ++
     (match t.createdAt with
       | none => []
       | some ts => [("created_at", Json.str ts.rfc3339)]) ++
     (match t.deletedAt with
       | none => []
       | some ts => [("deleted_at", Json.str ts.rfc3339)]) ++
     (match t.connections with
       | none => []
       | some [] => []
       | some cs => [("connections", Json.arr (cs.map encodeArgoTunnelConnection))]))

/-- The raw bytes handed back by the transport, viewed through the JSON
scanner: either not valid JSON at all, or a parsed JSON value. -/
inductive Raw where
  | malformed : Raw
  | json : Json → Raw

/-- `json.Unmarshal` of raw bytes into a target type given its value-level
unmarshaller: invalid bytes are a syntax error. -/
def unmarshal (dec : Json → Except JsonErr α) : Raw → Except JsonErr α
  | Raw.malformed => .error .parseError
  | Raw.json j => dec j

/-- The `API` client object, reduced to the one capability the spec grants
the external collaborator: "perform an authenticated HTTP request given
method, path, and optional body; return raw bytes or fail with a
transport/HTTP error".  The request body is the JSON the helper marshals
from the value the method passes (per the struct tags above); the
cancellation context is not modelled. -/
structure API where
  makeRequestContext : String → String → Option Json → Except TransportErr Raw

/-- `API.ArgoTunnels` (argo_tunnel.go lines 46-60): list all tunnels. -/
def API.argoTunnels (api : API) (accountID : String) :
    Option (List ArgoTunnel) × Option GoError :=
  let uri := "/accounts/" ++ accountID ++ "/tunnels"
  match api.makeRequestContext "GET" uri none with
  | .error e => (some [], some (errorsWrap (GoError.transport e) errMakeRequestError))
  | .ok res =>
    match unmarshal decodeArgoTunnelsDetailResponse res with
    | .error e => (some [], some (errorsWrap (GoError.jsonErr e) errUnmarshalError))
    | .ok r => (r.result, none)

/-- `API.ArgoTunnel` (argo_tunnel.go lines 65-79): get a single tunnel.
`fmt.Sprintf "/accounts/%s/tunnels/%s"` on string arguments is plain
interpolation, embedded as concatenation. -/
def API.argoTunnel (api : API) (accountID tunnelUUID : String) :
    ArgoTunnel × Option GoError :=
  let uri := "/accounts/" ++ accountID ++ "/tunnels/" ++ tunnelUUID
  match api.makeRequestContext "GET" uri none with
  | .error e => (zeroArgoTunnel, some (errorsWrap (GoError.transport e) errMakeRequestError))
  | .ok res =>
    match unmarshal decodeArgoTunnelDetailResponse res with
    | .error e => (zeroArgoTunnel, some (errorsWrap (GoError.jsonErr e) errUnmarshalError))
    | .ok r => (r.result, none)

/-- `API.CreateArgoTunnel` (argo_tunnel.go lines 84-100): create a tunnel.
The body value is `ArgoTunnel{Name: name, Secret: secret}`, marshalled by
the helper according to the struct tags. -/
def API.createArgoTunnel (api : API) (accountID name secret : String) :
    ArgoTunnel × Option GoError :=
  let uri := "/accounts/" ++ accountID ++ "/tunnels"
  let tunnel : ArgoTunnel := ⟨"", name, secret, none, none, none⟩
  match api.makeRequestContext "POST" uri (some (encodeArgoTunnel tunnel)) with
  | .error e => (zeroArgoTunnel, some (errorsWrap (GoError.transport e) errMakeRequestError))
  | .ok res =>
    match unmarshal decodeArgoTunnelDetailResponse res with
    | .error e => (zeroArgoTunnel, some (errorsWrap (GoError.jsonErr e) errUnmarshalError))
    | .ok r => (r.result, none)

/-- `API.DeleteArgoTunnel` (argo_tunnel.go lines 105-120): delete a tunnel.
The decoded envelope is discarded; only its decodability matters. -/
def API.deleteArgoTunnel (api : API) (accountID tunnelUUID : String) :
    Option GoError :=
  let uri := "/accounts/" ++ accountID ++ "/tunnels/" ++ tunnelUUID
  match api.makeRequestContext "DELETE" uri none with
  | .error e => some (errorsWrap (GoError.transport e) errMakeRequestError)
  | .ok res =>
    match unmarshal decodeArgoTunnelDetailResponse res with
    | .error e => some (errorsWrap (GoError.jsonErr e) errUnmarshalError)
    | .ok _ => none

/-- `API.CleanupArgoTunnelConnections` (argo_tunnel.go lines 125-140):
delete inactive connections; same discard-and-validate pattern. -/
def API.cleanupArgoTunnelConnections (api : API) (accountID tunnelUUID : String) :
    Option GoError :=
  let uri := "/accounts/" ++ accountID ++ "/tunnels/" ++ tunnelUUID ++ "/connections"
  match api.makeRequestContext "DELETE" uri none with
  | .error e => some (errorsWrap (GoError.transport e) errMakeRequestError)
  | .ok res =>
    match unmarshal decodeArgoTunnelDetailResponse res with
    | .error e => some (errorsWrap (GoError.jsonErr e) errUnmarshalError)
    | .ok _ => none

/-! Concrete transports used to exercise the operations on closed inputs. -/

/-- A transport that always fails with the same transport error. -/
def apiTransportFail : API :=
  ⟨fun _ _ _ => .error (TransportErr.mk "connection refused")⟩

/-- A transport that always succeeds with bytes that are not valid JSON. -/
def apiMalformed : API :=
  ⟨fun _ _ _ => .ok Raw.malformed⟩

/-- A transport answering with `{"result": []}`: valid for the multi-result
envelope, a type mismatch for the single-result envelope. -/
def apiResultArr : API :=
  ⟨fun _ _ _ => .ok (Raw.json (Json.obj [("result", Json.arr [])]))⟩

/-- A transport answering with `{"result": {}}`: valid for the single-result
envelope, a type mismatch for the multi-result envelope. -/
def apiResultObj : API :=
  ⟨fun _ _ _ => .ok (Raw.json (Json.obj [("result", Json.obj [])]))⟩

/-- A transport whose response is a well-formed envelope reporting a logical
failure: `success` is `false` and the error list is non-empty. -/
def apiLogicalFailure : API :=
  ⟨fun _ _ _ => .ok (Raw.json (Json.obj
    [("success", Json.bool false),
     ("errors", Json.arr [Json.obj
       [("code", Json.num 1003), ("message", Json.str "tunnel not found")]])]))⟩

/-- A fully populated tunnel used to exercise the round trip. -/
def wTunnel : ArgoTunnel :=
  ⟨"t1", "mytunnel", "s3cr3t", some ⟨"2021-01-01T00:00:00Z"⟩, none,
   some [⟨"SJC", "c2f865b1", true⟩]⟩

/-- A transport answering every request with a success envelope whose
`result` is the encoding of `wTunnel`. -/
def apiRoundTrip : API :=
  ⟨fun _ _ _ => .ok (Raw.json (Json.obj
    [("result", encodeArgoTunnel wTunnel), ("success", Json.bool true)]))⟩

/-- A transport answering with a two-element `result` array. -/
def apiListTwo : API :=
  ⟨fun _ _ _ => .ok (Raw.json (Json.obj
    [("result", Json.arr [Json.obj [("id", Json.str "t1")],
                          Json.obj [("id", Json.str "t2")]]),
     ("success", Json.bool true)]))⟩

/-- A transport answering with a tunnel whose single connection object has
no members at all. -/
def apiMissingConnFields : API :=
  ⟨fun _ _ _ => .ok (Raw.json (Json.obj
    [("result", Json.arr [Json.obj [("connections", Json.arr [Json.obj []])]]),
     ("success", Json.bool true)]))⟩

/-- A transport answering with an envelope that has no `result` member. -/
def apiNoResult : API :=
  ⟨fun _ _ _ => .ok (Raw.json (Json.obj [("success", Json.bool true)]))⟩

/-- A transport answering with an envelope whose `result` member is `null`. -/
def apiNullResult : API :=
  ⟨fun _ _ _ => .ok (Raw.json (Json.obj
    [("result", Json.null), ("success", Json.bool true)]))⟩

/-- A transport answering the Create scenario response of the spec. -/
def apiCreateScenario : API :=
  ⟨fun _ _ _ => .ok (Raw.json (Json.obj
    [("result", Json.obj [("id", Json.str "t1"), ("name", Json.str "mytunnel")]),
     ("success", Json.bool true)]))⟩

/-- A transport extensionally equal to `apiNoResult` but written differently. -/
def apiNoResultVariant : API :=
  ⟨fun m _ _ => if m = m then .ok (Raw.json (Json.obj [("success", Json.bool true)]))
                else .ok Raw.malformed⟩

/-- Bind on a successful `Except` computes the continuation. -/
theorem exceptOkBind {ε α β : Type} (a : α) (f : α → Except ε β) :
    (Except.ok a : Except ε α) >>= f = f a := rfl

/-- Bind on a failed `Except` propagates the error. -/
theorem exceptErrorBind {ε α β : Type} (e : ε) (f : α → Except ε β) :
    (Except.error e : Except ε α) >>= f = Except.error e := rfl

/-- C1: each of the five operations consults the transport with exactly the
method and path of the spec's table, the account and tunnel IDs interpolated
directly (plain concatenation, no encoding or escaping), and Create
additionally with the tagged marshalling of the partial tunnel as body.  A
transport that fails with an error recording its arguments reveals, in each
operation's returned error, exactly the request that was issued. -/
theorem c1_http_surface
    (e : String → String → Option Json → TransportErr) (a t n s : String) :
    (API.mk (fun m u b => .error (e m u b))).argoTunnels a =
      (some [], some (errorsWrap
        (GoError.transport (e "GET" ("/accounts/" ++ a ++ "/tunnels") none))
        errMakeRequestError)) ∧
    (API.mk (fun m u b => .error (e m u b))).argoTunnel a t =
      (zeroArgoTunnel, some (errorsWrap
        (GoError.transport (e "GET" ("/accounts/" ++ a ++ "/tunnels/" ++ t) none))
        errMakeRequestError)) ∧
    (API.mk (fun m u b => .error (e m u b))).createArgoTunnel a n s =
      (zeroArgoTunnel, some (errorsWrap
        (GoError.transport (e "POST" ("/accounts/" ++ a ++ "/tunnels")
          (some (encodeArgoTunnel ⟨"", n, s, none, none, none⟩))))
        errMakeRequestError)) ∧
    (API.mk (fun m u b => .error (e m u b))).deleteArgoTunnel a t =
      some (errorsWrap
        (GoError.transport (e "DELETE" ("/accounts/" ++ a ++ "/tunnels/" ++ t) none))
        errMakeRequestError) ∧
    (API.mk (fun m u b => .error (e m u b))).cleanupArgoTunnelConnections a t =
      some (errorsWrap
        (GoError.transport
          (e "DELETE" ("/accounts/" ++ a ++ "/tunnels/" ++ t ++ "/connections") none))
        errMakeRequestError) :=
  ⟨rfl, rfl, rfl, rfl, rfl⟩

/-- C2: whenever the transport reports an error, every operation returns the
zero-value result — `[]ArgoTunnel{}` (empty, non-nil) for List, `ArgoTunnel{}`
for Get and Create — together with a non-null error wrapping the transport
error with the static request-failure message. -/
theorem c2_transport_failure (api : API) (a t n s : String) (e : TransportErr)
    (hT : ∀ m u b, api.makeRequestContext m u b = .error e) :
    api.argoTunnels a =
      (some [], some (errorsWrap (GoError.transport e) errMakeRequestError)) ∧
    api.argoTunnel a t =
      (zeroArgoTunnel, some (errorsWrap (GoError.transport e) errMakeRequestError)) ∧
    api.createArgoTunnel a n s =
      (zeroArgoTunnel, some (errorsWrap (GoError.transport e) errMakeRequestError)) ∧
    api.deleteArgoTunnel a t =
      some (errorsWrap (GoError.transport e) errMakeRequestError) ∧
    api.cleanupArgoTunnelConnections a t =
      some (errorsWrap (GoError.transport e) errMakeRequestError) := by
  simp [API.argoTunnels, API.argoTunnel, API.createArgoTunnel,
    API.deleteArgoTunnel, API.cleanupArgoTunnelConnections, hT]

/-- C2 witness: the transport-failure behaviour at a concrete transport. -/
theorem c2_transport_failure_witness :
    apiTransportFail.argoTunnels "acct1" =
      (some [], some (errorsWrap (GoError.transport (TransportErr.mk "connection refused"))
        errMakeRequestError)) ∧
    apiTransportFail.argoTunnel "acct1" "t1" =
      (zeroArgoTunnel, some (errorsWrap (GoError.transport (TransportErr.mk "connection refused"))
        errMakeRequestError)) ∧
    apiTransportFail.createArgoTunnel "acct1" "mytunnel" "s3cr3t" =
      (zeroArgoTunnel, some (errorsWrap (GoError.transport (TransportErr.mk "connection refused"))
        errMakeRequestError)) ∧
    apiTransportFail.deleteArgoTunnel "acct1" "t1" =
      some (errorsWrap (GoError.transport (TransportErr.mk "connection refused"))
        errMakeRequestError) ∧
    apiTransportFail.cleanupArgoTunnelConnections "acct1" "t1" =
      some (errorsWrap (GoError.transport (TransportErr.mk "connection refused"))
        errMakeRequestError) :=
  c2_transport_failure apiTransportFail "acct1" "t1" "mytunnel" "s3cr3t"
    (TransportErr.mk "connection refused") (fun _ _ _ => rfl)

/-- C3: whenever the transport succeeds but the returned bytes do not
unmarshal into the envelope type the operation expects, that operation
returns the zero-value result and a non-null error wrapping the JSON error
with the static decode-failure message; no partial result accompanies the
error.  Each operation is conditioned only on its own envelope decoder, so
the theorem also covers bytes that the other envelope decoder accepts. -/
theorem c3_decode_failure (api : API) (a t n s : String) (raw : Raw)
    (je : JsonErr)
    (hT : ∀ m u b, api.makeRequestContext m u b = .ok raw) :
    (unmarshal decodeArgoTunnelsDetailResponse raw = .error je →
      api.argoTunnels a =
        (some [], some (errorsWrap (GoError.jsonErr je) errUnmarshalError))) ∧
    (unmarshal decodeArgoTunnelDetailResponse raw = .error je →
      api.argoTunnel a t =
        (zeroArgoTunnel, some (errorsWrap (GoError.jsonErr je) errUnmarshalError))) ∧
    (unmarshal decodeArgoTunnelDetailResponse raw = .error je →
      api.createArgoTunnel a n s =
        (zeroArgoTunnel, some (errorsWrap (GoError.jsonErr je) errUnmarshalError))) ∧
    (unmarshal decodeArgoTunnelDetailResponse raw = .error je →
      api.deleteArgoTunnel a t =
        some (errorsWrap (GoError.jsonErr je) errUnmarshalError)) ∧
    (unmarshal decodeArgoTunnelDetailResponse raw = .error je →
      api.cleanupArgoTunnelConnections a t =
        some (errorsWrap (GoError.jsonErr je) errUnmarshalError)) := by
  refine ⟨fun hL => ?_, fun hD => ?_, fun hD => ?_, fun hD => ?_, fun hD => ?_⟩ <;>
    simp_all [API.argoTunnels, API.argoTunnel, API.createArgoTunnel,
      API.deleteArgoTunnel, API.cleanupArgoTunnelConnections, hT]

/-- C3 witness: decode failure at concrete inputs, exercising each
operation against bytes its own decoder rejects — bytes that are not valid
JSON, `{"result": {}}` (rejected only by the multi-result decoder), and
`{"result": []}` (rejected only by the single-result decoder). -/
theorem c3_decode_failure_witness :
    apiMalformed.argoTunnels "acct1" =
      (some [], some (errorsWrap (GoError.jsonErr JsonErr.parseError) errUnmarshalError)) ∧
    apiResultObj.argoTunnels "acct1" =
      (some [], some (errorsWrap (GoError.jsonErr JsonErr.typeMismatch) errUnmarshalError)) ∧
    apiResultArr.argoTunnel "acct1" "t1" =
      (zeroArgoTunnel, some (errorsWrap (GoError.jsonErr JsonErr.typeMismatch) errUnmarshalError)) ∧
    apiResultArr.createArgoTunnel "acct1" "mytunnel" "s3cr3t" =
      (zeroArgoTunnel, some (errorsWrap (GoError.jsonErr JsonErr.typeMismatch) errUnmarshalError)) ∧
    apiResultArr.deleteArgoTunnel "acct1" "t1" =
      some (errorsWrap (GoError.jsonErr JsonErr.typeMismatch) errUnmarshalError) ∧
    apiResultArr.cleanupArgoTunnelConnections "acct1" "t1" =
      some (errorsWrap (GoError.jsonErr JsonErr.typeMismatch) errUnmarshalError) :=
  ⟨(c3_decode_failure apiMalformed "acct1" "t1" "mytunnel" "s3cr3t" Raw.malformed
      JsonErr.parseError (fun _ _ _ => rfl)).1 rfl,
   (c3_decode_failure apiResultObj "acct1" "t1" "mytunnel" "s3cr3t"
      (Raw.json (Json.obj [("result", Json.obj [])]))
      JsonErr.typeMismatch (fun _ _ _ => rfl)).1 rfl,
   (c3_decode_failure apiResultArr "acct1" "t1" "mytunnel" "s3cr3t"
      (Raw.json (Json.obj [("result", Json.arr [])]))
      JsonErr.typeMismatch (fun _ _ _ => rfl)).2.1 rfl,
   (c3_decode_failure apiResultArr "acct1" "t1" "mytunnel" "s3cr3t"
      (Raw.json (Json.obj [("result", Json.arr [])]))
      JsonErr.typeMismatch (fun _ _ _ => rfl)).2.2.1 rfl,
   (c3_decode_failure apiResultArr "acct1" "t1" "mytunnel" "s3cr3t"
      (Raw.json (Json.obj [("result", Json.arr [])]))
      JsonErr.typeMismatch (fun _ _ _ => rfl)).2.2.2.1 rfl,
   (c3_decode_failure apiResultArr "acct1" "t1" "mytunnel" "s3cr3t"
      (Raw.json (Json.obj [("result", Json.arr [])]))
      JsonErr.typeMismatch (fun _ _ _ => rfl)).2.2.2.2 rfl⟩

/-- C4: when the transport succeeds and the bytes decode into any envelope,
Delete and CleanupConnections return no error, whatever the envelope's
success flag and error list say. -/
theorem c4_envelope_ignored (api : API) (a t : String) (raw : Raw)
    (env : ArgoTunnelDetailResponse)
    (hT : ∀ m u b, api.makeRequestContext m u b = .ok raw)
    (hD : unmarshal decodeArgoTunnelDetailResponse raw = .ok env) :
    api.deleteArgoTunnel a t = none ∧
    api.cleanupArgoTunnelConnections a t = none := by
  simp [API.deleteArgoTunnel, API.cleanupArgoTunnelConnections, hT, hD]

/-- C4 witness: an envelope with `success` false and a non-empty error list
still yields no error from Delete and CleanupConnections. -/
theorem c4_envelope_ignored_witness :
    apiLogicalFailure.deleteArgoTunnel "acct1" "t1" = none ∧
    apiLogicalFailure.cleanupArgoTunnelConnections "acct1" "t1" = none :=
  c4_envelope_ignored apiLogicalFailure "acct1" "t1"
    (Raw.json (Json.obj
      [("success", Json.bool false),
       ("errors", Json.arr [Json.obj
         [("code", Json.num 1003), ("message", Json.str "tunnel not found")]])]))
    ⟨zeroArgoTunnel, ⟨false, some [⟨1003, "tunnel not found"⟩], none⟩⟩
    (fun _ _ _ => rfl) rfl

/-- C5: the Create request body is the tagged marshalling of
`ArgoTunnel{Name: name, Secret: secret}` — only `name` and `tunnel_secret`
appear, each omitted when empty — and the spec's Create scenario holds end
to end. -/
theorem c5_create_body (n s : String) :
    encodeArgoTunnel ⟨"", n, s, none, none, none⟩ =
      Json.obj ((if n = "" then [] else [("name", Json.str n)]) ++
                (if s = "" then [] else [("tunnel_secret", Json.str s)])) ∧
    encodeArgoTunnel ⟨"", "mytunnel", "s3cr3t", none, none, none⟩ =
      Json.obj [("name", Json.str "mytunnel"), ("tunnel_secret", Json.str "s3cr3t")] ∧
    apiCreateScenario.createArgoTunnel "acct1" "mytunnel" "s3cr3t" =
      (⟨"t1", "mytunnel", "", none, none, none⟩, none) := by
  refine ⟨?_, rfl, rfl⟩
  simp [encodeArgoTunnel]

/-- Decoding the marshalling of a connection recovers the connection. -/
theorem decode_encode_conn (c : ArgoTunnelConnection) :
    decodeArgoTunnelConnection (encodeArgoTunnelConnection c) = .ok c := rfl

/-- Decoding the marshalling of a connection list recovers the list. -/
theorem decodeList_encode_conn (cs : List ArgoTunnelConnection) :
    decodeList decodeArgoTunnelConnection (cs.map encodeArgoTunnelConnection) =
      .ok cs := by
  induction cs with
  | nil => rfl
  | cons c cs ih =>
    simp [List.map, decodeList, decode_encode_conn, ih, exceptOkBind]

set_option maxHeartbeats 1600000 in
/-- Decoding the marshalling of a tunnel recovers the tunnel, provided the
connection slice is not empty-but-non-nil (`omitempty` collapses a non-nil
empty slice to an absent member, which decodes back to nil). -/
theorem decode_encode_tunnel (t : ArgoTunnel) (hc : t.connections ≠ some []) :
    decodeArgoTunnel (encodeArgoTunnel t) = .ok t := by
  obtain ⟨i, n, s, ca, da, cn⟩ := t
  by_cases hi : i = "" <;> by_cases hn : n = "" <;> by_cases hs : s = "" <;>
    rcases ca with _ | ca <;> rcases da with _ | da <;>
    rcases cn with _ | ⟨_ | ⟨c, cs⟩⟩ <;>
    simp_all [encodeArgoTunnel, decodeArgoTunnel, decodeStringField,
      decodeBoolField, decodeTimeField, decodeConnectionsField, lookupField,
      decodeList_encode_conn, decode_encode_conn, decodeList, exceptOkBind]

/-- C6: when the transport answers with a single-result envelope carrying
the marshalling of any tunnel, Get and Create return exactly that tunnel
(round-trip fidelity), and a result object with every member omitted decodes
to the zero tunnel (empty strings, nil timestamps, nil connection slice).
The hypothesis excludes the one non-injective point of `omitempty`
marshalling: a non-nil empty connection slice is emitted as an absent
member, which decodes back to nil. -/
theorem c6_roundtrip (api : API) (a t n s : String) (tun : ArgoTunnel)
    (hc : tun.connections ≠ some [])
    (hT : ∀ m u b, api.makeRequestContext m u b =
      .ok (Raw.json (Json.obj [("result", encodeArgoTunnel tun),
                               ("success", Json.bool true)]))) :
    api.argoTunnel a t = (tun, none) ∧
    api.createArgoTunnel a n s = (tun, none) ∧
    decodeArgoTunnel (Json.obj []) = .ok zeroArgoTunnel := by
  have hd : decodeArgoTunnelDetailResponse
      (Json.obj [("result", encodeArgoTunnel tun), ("success", Json.bool true)]) =
      .ok ⟨tun, ⟨true, none, none⟩⟩ := by
    simp [decodeArgoTunnelDetailResponse, decodeResponseFields, decodeBoolField,
      decodeInfoListField, lookupField, decode_encode_tunnel tun hc, exceptOkBind]
  refine ⟨?_, ?_, rfl⟩ <;>
    simp [API.argoTunnel, API.createArgoTunnel, hT, unmarshal, hd, exceptOkBind]

/-- C6 witness: the round trip at a fully populated concrete tunnel. -/
theorem c6_roundtrip_witness :
    apiRoundTrip.argoTunnel "acct1" "t1" = (wTunnel, none) ∧
    apiRoundTrip.createArgoTunnel "acct1" "mytunnel" "s3cr3t" = (wTunnel, none) := by
  have h := c6_roundtrip apiRoundTrip "acct1" "t1" "mytunnel" "s3cr3t" wTunnel
    (by simp [wTunnel]) (fun _ _ _ => rfl)
  exact ⟨h.1, h.2.1⟩

/-- Element-wise unmarshalling preserves length and order: a successful
`decodeList` yields a list of the same length whose `i`-th element is the
decoding of the `i`-th input. -/
theorem decodeList_ok_spec {α : Type} (dec : Json → Except JsonErr α)
    (js : List Json) :
    ∀ xs, decodeList dec js = .ok xs →
      xs.length = js.length ∧
      ∀ (i : ℕ) (hj : i < js.length) (hx : i < xs.length),
        dec (js[i]) = .ok (xs[i]) := by
  induction js with
  | nil =>
    intro xs h
    simp [decodeList] at h
    subst h
    refine ⟨rfl, ?_⟩
    intro i hj hx
    simp at hj
  | cons j js ih =>
    intro xs h
    simp only [decodeList] at h
    cases hj : dec j with
    | error e =>
      rw [hj] at h
      rw [exceptErrorBind] at h
      exact Except.noConfusion h
    | ok x =>
      rw [hj] at h
      rw [exceptOkBind] at h
      cases hjs : decodeList dec js with
      | error e =>
        rw [hjs] at h
        rw [exceptErrorBind] at h
        exact Except.noConfusion h
      | ok xs2 =>
        rw [hjs] at h
        rw [exceptOkBind] at h
        injection h with h
        subst h
        obtain ⟨hlen, hpt⟩ := ih xs2 hjs
        refine ⟨by simp [hlen], ?_⟩
        intro i hjlt hxlt
        cases i with
        | zero => simpa using hj
        | succ k =>
          have hk1 : k < js.length := by simpa using hjlt
          have hk2 : k < xs2.length := by simpa using hxlt
          simpa using hpt k hk1 hk2

/-- C7: when the transport answers with a multi-result envelope whose
`result` array unmarshals, List returns exactly the decoded sequence, of the
same length as the JSON array and with the `i`-th element decoded from the
`i`-th array element (order preserved). -/
theorem c7_list_order (api : API) (a : String) (js : List Json)
    (ts : List ArgoTunnel)
    (hdec : decodeList decodeArgoTunnel js = .ok ts)
    (hT : ∀ m u b, api.makeRequestContext m u b =
      .ok (Raw.json (Json.obj [("result", Json.arr js),
                               ("success", Json.bool true)]))) :
    api.argoTunnels a = (some ts, none) ∧
    ts.length = js.length ∧
    ∀ (i : ℕ) (hj : i < js.length) (hx : i < ts.length),
      decodeArgoTunnel (js[i]) = .ok (ts[i]) := by
  obtain ⟨hlen, hpt⟩ := decodeList_ok_spec decodeArgoTunnel js ts hdec
  refine ⟨?_, hlen, hpt⟩
  simp [API.argoTunnels, hT, unmarshal, decodeArgoTunnelsDetailResponse,
    decodeResponseFields, decodeBoolField, decodeInfoListField, lookupField,
    hdec, exceptOkBind]

/-- C7 witness: a two-element result array, in order. -/
theorem c7_list_order_witness :
    apiListTwo.argoTunnels "acct1" =
      (some [⟨"t1", "", "", none, none, none⟩, ⟨"t2", "", "", none, none, none⟩],
       none) :=
  (c7_list_order apiListTwo "acct1"
    [Json.obj [("id", Json.str "t1")], Json.obj [("id", Json.str "t2")]]
    [⟨"t1", "", "", none, none, none⟩, ⟨"t2", "", "", none, none, none⟩]
    rfl (fun _ _ _ => rfl)).1

/-- C8 counterexample: decoding does NOT treat `colo_name`, `uuid` and
`is_pending_reconnect` as mandatory — a connection object missing all of
them (or all but one) is accepted, and a whole List call carrying such a
connection succeeds with zero-valued members and no error. -/
theorem c8_counterexample :
    decodeArgoTunnelConnection (Json.obj []) = .ok ⟨"", "", false⟩ ∧
    decodeArgoTunnelConnection (Json.obj [("colo_name", Json.str "SJC")]) =
      .ok ⟨"SJC", "", false⟩ ∧
    apiMissingConnFields.argoTunnels "acct1" =
      (some [⟨"", "", "", none, none, some [⟨"", "", false⟩]⟩], none) :=
  ⟨rfl, rfl, rfl⟩

/-- C8 amended: the three connection members carry no `omitempty`, so they
are always emitted on marshalling; on unmarshalling they are optional like
every Go struct member, a missing member leaving the zero value. -/
theorem c8_amended_fields (c : ArgoTunnelConnection) :
    encodeArgoTunnelConnection c =
      Json.obj [("colo_name", Json.str c.coloName), ("uuid", Json.str c.uuid),
                ("is_pending_reconnect", Json.bool c.isPendingReconnect)] ∧
    decodeArgoTunnelConnection (Json.obj []) = .ok ⟨"", "", false⟩ ∧
    decodeArgoTunnelConnection (Json.obj [("uuid", Json.str c.uuid)]) =
      .ok ⟨"", c.uuid, false⟩ :=
  ⟨rfl, rfl, rfl⟩

/-- C9: on the success path, an envelope without a `result` member (or with
`result: null`) makes List return the nil slice — `none`, not the non-nil
empty slice `some []` produced on the failure paths. -/
theorem c9_nil_result :
    apiNoResult.argoTunnels "acct1" = (none, none) ∧
    apiNullResult.argoTunnels "acct1" = (none, none) :=
  ⟨rfl, rfl⟩

/-- C10: every operation is a function of the transport outcome — two
clients whose transports agree pointwise produce identical results and
identical errors for every operation and argument. -/
theorem c10_deterministic (api₁ api₂ : API) (a t n s : String)
    (h : ∀ m u b, api₁.makeRequestContext m u b = api₂.makeRequestContext m u b) :
    api₁.argoTunnels a = api₂.argoTunnels a ∧
    api₁.argoTunnel a t = api₂.argoTunnel a t ∧
    api₁.createArgoTunnel a n s = api₂.createArgoTunnel a n s ∧
    api₁.deleteArgoTunnel a t = api₂.deleteArgoTunnel a t ∧
    api₁.cleanupArgoTunnelConnections a t =
      api₂.cleanupArgoTunnelConnections a t := by
  refine ⟨?_, ?_, ?_, ?_, ?_⟩ <;>
    simp only [API.argoTunnels, API.argoTunnel, API.createArgoTunnel,
      API.deleteArgoTunnel, API.cleanupArgoTunnelConnections, h]

/-- C10 witness: two syntactically different but pointwise equal transports
yield identical operation results. -/
theorem c10_deterministic_witness :
    apiNoResult.argoTunnels "acct1" = apiNoResultVariant.argoTunnels "acct1" ∧
    apiNoResult.argoTunnel "acct1" "t1" = apiNoResultVariant.argoTunnel "acct1" "t1" ∧
    apiNoResult.createArgoTunnel "acct1" "n" "s" =
      apiNoResultVariant.createArgoTunnel "acct1" "n" "s" ∧
    apiNoResult.deleteArgoTunnel "acct1" "t1" =
      apiNoResultVariant.deleteArgoTunnel "acct1" "t1" ∧
    apiNoResult.cleanupArgoTunnelConnections "acct1" "t1" =
      apiNoResultVariant.cleanupArgoTunnelConnections "acct1" "t1" :=
  c10_deterministic apiNoResult apiNoResultVariant "acct1" "t1" "n" "s"
    (fun m u b => by simp [apiNoResult, apiNoResultVariant])
